import Mathlib

/-!
Verification of the Matrix chat-room projection logic of `src/matrix-bot.py`
(class `MatrixChatManager`): the state-event fold and timeline scan of
`get_user_chats`, the member resolution of `get_room_members`, and the
session behaviour of `sync` and `logout`, embedded shallowly as pure
Lean functions.
-/

namespace MatrixBot

/-- A Matrix event as consumed by the client: the optional `type` field
(`event.get("type")`) and the string-valued `content` dictionary
(`event.get("content", {})`), modelled as an association list. -/
structure Event where
  type : Option String
  content : List (String × String)
deriving DecidableEq

/-- The per-room accumulator of `get_user_chats` (matrix-bot.py lines
187–206): the five mutable variables initialised before the state-event
loop. -/
structure RoomAcc where
  room_name : String
  room_topic : String
  room_alias : String
  is_encrypted : Bool
  member_count : Nat
deriving DecidableEq

/-- Initial values of the accumulator (matrix-bot.py lines 187–191). -/
def initAcc : RoomAcc :=
  { room_name := "Без названия"
    room_topic := "Нет описания"
    room_alias := "Нет алиаса"
    is_encrypted := false
    member_count := 0 }

/-- One iteration of the state-event loop (matrix-bot.py lines 193–206):
dispatch on the event type; `content.get(key, current)` is
`(content.lookup key).getD current`. -/
def processStateEvent (acc : RoomAcc) (event : Event) : RoomAcc :=
  if event.type = some "m.room.name" then
    { acc with room_name := (event.content.lookup "name").getD acc.room_name }
  else if event.type = some "m.room.topic" then
    { acc with room_topic := (event.content.lookup "topic").getD acc.room_topic }
  else if event.type = some "m.room.canonical_alias" then
    { acc with room_alias := (event.content.lookup "alias").getD acc.room_alias }
  else if event.type = some "m.room.encryption" then
    { acc with is_encrypted := true }
  else if event.type = some "m.room.member" then
    { acc with member_count := acc.member_count + 1 }
  else
    acc

/-- The whole state-event loop: a left fold from the initial accumulator. -/
def foldState (state_events : List Event) : RoomAcc :=
  state_events.foldl processStateEvent initAcc

/-- Message-body truncation (matrix-bot.py line 217):
`body[:100] + "..." if len(body) > 100 else body`. -/
def truncateBody (body : String) : String :=
  if body.length > 100 then body.take 100 ++ "..." else body

/-- The loop `for event in reversed(timeline_events)` (matrix-bot.py lines
212–218), written over the already-reversed list: the first event of type
`m.room.message` whose content has a `body` key yields the (truncated)
last message and stops the scan; other events are skipped. -/
def lastMessageLoop : List Event → String
  | [] => "Нет сообщений"
  | event :: rest =>
    if event.type = some "m.room.message" then
      match event.content.lookup "body" with
      | some body => truncateBody body
      | none => lastMessageLoop rest
    else
      lastMessageLoop rest

/-- The timeline scan of `get_user_chats`: run the loop on the reversed
timeline. -/
def scanLastMessage (timeline_events : List Event) : String :=
  lastMessageLoop timeline_events.reverse

/-- The `room_info` dictionary built for each joined room
(matrix-bot.py lines 224–233). -/
structure RoomSummary where
  room_id : String
  name : String
  canonical_alias : String
  member_count : Nat
  is_encrypted : Bool
  topic : String
  last_message : String
  members : List String
deriving DecidableEq

/-- Assembly of one room's summary (matrix-bot.py lines 182–234), with the
resolved member roster passed in: `member_count = len(members) if members
else member_count` and `members_preview = members[:10] if members else []`. -/
def projectRoom (room_id : String) (state_events timeline_events : List Event)
    (members : List String) : RoomSummary :=
  let acc := foldState state_events
  let last_message := scanLastMessage timeline_events
  let members_preview := if members.isEmpty then [] else members.take 10
  { room_id := room_id
    name := acc.room_name
    canonical_alias := acc.room_alias
    member_count := if members.isEmpty then acc.member_count else members.length
    is_encrypted := acc.is_encrypted
    topic := acc.room_topic
    last_message := last_message
    members := members_preview }

/-- One membership record of the `/members` response `chunk`
(matrix-bot.py lines 156–158): `member.get("content", {}).get("displayname")`
and `member.get("state_key", "")`. -/
structure MemberRecord where
  displayname : Option String
  state_key : String
deriving DecidableEq

/-- Outcome of the HTTP call inside `get_room_members`: a 200 response with
its `chunk`, or any non-200 status / raised exception. -/
inductive MembersResponse where
  | ok (chunk : List MemberRecord)
  | failure
deriving DecidableEq

/-- Python truthiness of the optional token string: `not self.access_token`
is true when the token is `None` and also when it is the empty string. -/
def tokenFalsy : Option String → Bool
  | none => true
  | some t => decide (t = "")

/-- `get_room_members` (matrix-bot.py lines 143–164): empty list without a
truthy token (`if not self.access_token`, line 145) or on any failed call;
otherwise one entry per record, `display_name if display_name else user_id`
(Python truthiness: `None` and the empty string both fall back to the
identifier). -/
def get_room_members (access_token : Option String) (resp : MembersResponse) :
    List String :=
  if tokenFalsy access_token then []
  else
    match resp with
    | MembersResponse.ok chunk =>
        chunk.map (fun member =>
          match member.displayname with
          | some displayname =>
              if displayname = "" then member.state_key else displayname
          | none => member.state_key)
    | MembersResponse.failure => []

/-- The per-room slice of a sync payload: the `state.events` and
`timeline.events` lists. -/
structure RoomData where
  state_events : List Event
  timeline_events : List Event
deriving DecidableEq

/-- The part of the `/sync` response consumed by the client:
`rooms.join`, a map from room id to room data. -/
structure SyncPayload where
  join : List (String × RoomData)
deriving DecidableEq

/-- Outcome of the HTTP call inside `sync`: a 200 response with its payload,
a non-200 response (optional server error message and status), or a raised
exception. -/
inductive SyncResponse where
  | ok (payload : SyncPayload)
  | httpError (errorMsg : Option String) (status : Nat)
  | exn
deriving DecidableEq

/-- `sync` (matrix-bot.py lines 99–123), returning the parsed payload (or
`none` on any failure) paired with the number of network requests issued:
the token check (`if not self.access_token`, line 101, a truthiness test)
precedes the request, so the unauthenticated path performs zero calls. -/
def sync (access_token : Option String) (_timeout : Nat) (resp : SyncResponse) :
    Option SyncPayload × Nat :=
  if tokenFalsy access_token then (none, 0)
  else
    match resp with
    | SyncResponse.ok payload => (some payload, 1)
    | SyncResponse.httpError _ _ => (none, 1)
    | SyncResponse.exn => (none, 1)

/-- The token-and-connection state of a `MatrixChatManager`: `session_open`
is true when `self.session` exists and is not closed. -/
structure SessionState where
  access_token : Option String
  user_id : Option String
  device_id : Option String
  session_open : Bool
deriving DecidableEq

/-- Outcome of the HTTP call inside `logout`. -/
inductive LogoutResponse where
  | ok
  | httpError (status : Nat)
  | exn
deriving DecidableEq

/-- `_close_session` (matrix-bot.py lines 44–47): close the session when it
exists and is open. -/
def close_session (s : SessionState) : SessionState :=
  if s.session_open then { s with session_open := false } else s

/-- `logout` (matrix-bot.py lines 242–262): return immediately when the
token is falsy (`if not self.access_token`, line 244: `None` or the empty
string); otherwise issue the server call (its outcome — success, error
status, or exception — is only logged) and in the `finally` block clear the
token, user id and device id and close the session. -/
def logout (s : SessionState) (_resp : LogoutResponse) : SessionState :=
  if tokenFalsy s.access_token then s
  else
    close_session
      { s with access_token := none, user_id := none, device_id := none }

/-- Value carried for key `k` by an event of type `t`: `none` when the event
has another type or its content lacks the key. -/
def stateLookup (t k : String) (event : Event) : Option String :=
  if event.type = some t then event.content.lookup k else none

/-- The value of the last event of type `t` that actually carries key `k`
in a forward-ordered event sequence. -/
def lastKeyed (t k : String) (events : List Event) : Option String :=
  events.reverse.findSome? (stateLookup t k)

/-- Boolean test for an event's type. -/
def isType (t : String) (event : Event) : Bool :=
  decide (event.type = some t)

/-- The last event of type `t` in a forward-ordered event sequence. -/
def lastOfType (t : String) (events : List Event) : Option Event :=
  events.reverse.find? (isType t)

theorem processStateEvent_room_name (acc : RoomAcc) (event : Event) :
    (processStateEvent acc event).room_name
      = (stateLookup "m.room.name" "name" event).getD acc.room_name := by
  unfold processStateEvent stateLookup
  split_ifs <;> simp_all

theorem processStateEvent_room_topic (acc : RoomAcc) (event : Event) :
    (processStateEvent acc event).room_topic
      = (stateLookup "m.room.topic" "topic" event).getD acc.room_topic := by
  unfold processStateEvent stateLookup
  split_ifs <;> simp_all

theorem processStateEvent_room_alias (acc : RoomAcc) (event : Event) :
    (processStateEvent acc event).room_alias
      = (stateLookup "m.room.canonical_alias" "alias" event).getD acc.room_alias := by
  unfold processStateEvent stateLookup
  split_ifs <;> simp_all

theorem processStateEvent_is_encrypted (acc : RoomAcc) (event : Event) :
    (processStateEvent acc event).is_encrypted
      = (acc.is_encrypted || isType "m.room.encryption" event) := by
  unfold processStateEvent isType
  split_ifs <;> simp_all

theorem processStateEvent_member_count (acc : RoomAcc) (event : Event) :
    (processStateEvent acc event).member_count
      = acc.member_count + (if isType "m.room.member" event then 1 else 0) := by
  unfold processStateEvent isType
  split_ifs <;> simp_all

theorem foldr_room_name (r : List Event) (acc : RoomAcc) :
    (r.foldr (fun event a => processStateEvent a event) acc).room_name
      = (r.findSome? (stateLookup "m.room.name" "name")).getD acc.room_name := by
  induction r with
  | nil => rfl
  | cons event rest ih =>
    simp only [List.foldr_cons, processStateEvent_room_name, List.findSome?_cons]
    cases h : stateLookup "m.room.name" "name" event with
    | some v => simp
    | none => simp [ih]

theorem foldr_room_topic (r : List Event) (acc : RoomAcc) :
    (r.foldr (fun event a => processStateEvent a event) acc).room_topic
      = (r.findSome? (stateLookup "m.room.topic" "topic")).getD acc.room_topic := by
  induction r with
  | nil => rfl
  | cons event rest ih =>
    simp only [List.foldr_cons, processStateEvent_room_topic, List.findSome?_cons]
    cases h : stateLookup "m.room.topic" "topic" event with
    | some v => simp
    | none => simp [ih]

theorem foldr_room_alias (r : List Event) (acc : RoomAcc) :
    (r.foldr (fun event a => processStateEvent a event) acc).room_alias
      = (r.findSome? (stateLookup "m.room.canonical_alias" "alias")).getD acc.room_alias := by
  induction r with
  | nil => rfl
  | cons event rest ih =>
    simp only [List.foldr_cons, processStateEvent_room_alias, List.findSome?_cons]
    cases h : stateLookup "m.room.canonical_alias" "alias" event with
    | some v => simp
    | none => simp [ih]

theorem foldState_room_name (events : List Event) :
    (foldState events).room_name
      = (lastKeyed "m.room.name" "name" events).getD "Без названия" := by
  have h := foldr_room_name events.reverse initAcc
  rw [List.foldr_reverse] at h
  exact h

theorem foldState_room_topic (events : List Event) :
    (foldState events).room_topic
      = (lastKeyed "m.room.topic" "topic" events).getD "Нет описания" := by
  have h := foldr_room_topic events.reverse initAcc
  rw [List.foldr_reverse] at h
  exact h

theorem foldState_room_alias (events : List Event) :
    (foldState events).room_alias
      = (lastKeyed "m.room.canonical_alias" "alias" events).getD "Нет алиаса" := by
  have h := foldr_room_alias events.reverse initAcc
  rw [List.foldr_reverse] at h
  exact h

theorem foldl_is_encrypted (events : List Event) (acc : RoomAcc) :
    (events.foldl processStateEvent acc).is_encrypted
      = (acc.is_encrypted || events.any (isType "m.room.encryption")) := by
  induction events generalizing acc with
  | nil => simp
  | cons event rest ih =>
    simp [List.foldl_cons, ih, processStateEvent_is_encrypted, Bool.or_assoc]

theorem foldl_member_count (events : List Event) (acc : RoomAcc) :
    (events.foldl processStateEvent acc).member_count
      = acc.member_count + events.countP (isType "m.room.member") := by
  induction events generalizing acc with
  | nil => simp
  | cons event rest ih =>
    rw [List.foldl_cons, ih, processStateEvent_member_count, List.countP_cons]
    cases h : isType "m.room.member" event
    · simp [h]
    · simp [h]
      omega

theorem lastMessageLoop_eq (r : List Event) :
    lastMessageLoop r
      = ((r.findSome? (stateLookup "m.room.message" "body")).map truncateBody).getD
          "Нет сообщений" := by
  induction r with
  | nil => rfl
  | cons event rest ih =>
    simp only [lastMessageLoop, List.findSome?_cons]
    by_cases h : event.type = some "m.room.message"
    · cases hb : event.content.lookup "body" with
      | some body => simp [stateLookup, h, hb]
      | none => simp [stateLookup, h, hb, ih]
    · simp [stateLookup, h, ih]

theorem findSome?_of_find?_key (t k : String) (l : List Event) (ev : Event)
    (v : String) (hfind : l.find? (isType t) = some ev)
    (hkey : ev.content.lookup k = some v) :
    l.findSome? (stateLookup t k) = some v := by
  induction l with
  | nil => simp at hfind
  | cons a rest ih =>
    by_cases ha : a.type = some t
    · have hpa : isType t a = true := by simp [isType, ha]
      rw [List.find?_cons_of_pos _ hpa] at hfind
      have hae : a = ev := by injection hfind
      subst hae
      rw [List.findSome?_cons]
      simp [stateLookup, ha, hkey]
    · have hpa : isType t a = false := by simp [isType, ha]
      rw [List.find?_cons_of_neg _ (by simp [hpa])] at hfind
      rw [List.findSome?_cons]
      simp [stateLookup, ha, ih hfind]

theorem findSome?_of_find?_none (t k : String) (l : List Event)
    (hfind : l.find? (isType t) = none) :
    l.findSome? (stateLookup t k) = none := by
  induction l with
  | nil => rfl
  | cons a rest ih =>
    by_cases ha : a.type = some t
    · have hpa : isType t a = true := by simp [isType, ha]
      rw [List.find?_cons_of_pos _ hpa] at hfind
      simp at hfind
    · have hpa : isType t a = false := by simp [isType, ha]
      rw [List.find?_cons_of_neg _ (by simp [hpa])] at hfind
      rw [List.findSome?_cons]
      simp [stateLookup, ha, ih hfind]

/-- A naming state event carrying a room name. -/
def nameEvent (s : String) : Event :=
  { type := some "m.room.name", content := [("name", s)] }

/-- A topic state event carrying a topic. -/
def topicEvent (s : String) : Event :=
  { type := some "m.room.topic", content := [("topic", s)] }

/-- A canonical-alias state event carrying an alias. -/
def aliasEvent (s : String) : Event :=
  { type := some "m.room.canonical_alias", content := [("alias", s)] }

/-- An encryption state event. -/
def encryptionEvent : Event :=
  { type := some "m.room.encryption", content := [("algorithm", "m.megolm.v1.aes-sha2")] }

/-- A membership state event. -/
def memberEvent : Event :=
  { type := some "m.room.member", content := [("membership", "join")] }

/-- A timeline message event carrying a body. -/
def messageEvent (b : String) : Event :=
  { type := some "m.room.message", content := [("body", b)] }

/-- C1: for every state-event sequence, the summary's name, topic and alias
each equal the value carried by the last event of the respective type
(`m.room.name`, `m.room.topic`, `m.room.canonical_alias`), regardless of any
earlier events of that type; when no event of a type occurs, the field
equals its documented default. -/
theorem C1_last_write_wins (events : List Event) :
    (∀ ev v, lastOfType "m.room.name" events = some ev →
        ev.content.lookup "name" = some v → (foldState events).room_name = v)
  ∧ (lastOfType "m.room.name" events = none →
        (foldState events).room_name = "Без названия")
  ∧ (∀ ev v, lastOfType "m.room.topic" events = some ev →
        ev.content.lookup "topic" = some v → (foldState events).room_topic = v)
  ∧ (lastOfType "m.room.topic" events = none →
        (foldState events).room_topic = "Нет описания")
  ∧ (∀ ev v, lastOfType "m.room.canonical_alias" events = some ev →
        ev.content.lookup "alias" = some v → (foldState events).room_alias = v)
  ∧ (lastOfType "m.room.canonical_alias" events = none →
        (foldState events).room_alias = "Нет алиаса") := by
  refine ⟨?_, ?_, ?_, ?_, ?_, ?_⟩
  · intro ev v hfind hkey
    rw [foldState_room_name, lastKeyed,
      findSome?_of_find?_key "m.room.name" "name" events.reverse ev v hfind hkey]
    rfl
  · intro hnone
    rw [foldState_room_name, lastKeyed,
      findSome?_of_find?_none "m.room.name" "name" events.reverse hnone]
    rfl
  · intro ev v hfind hkey
    rw [foldState_room_topic, lastKeyed,
      findSome?_of_find?_key "m.room.topic" "topic" events.reverse ev v hfind hkey]
    rfl
  · intro hnone
    rw [foldState_room_topic, lastKeyed,
      findSome?_of_find?_none "m.room.topic" "topic" events.reverse hnone]
    rfl
  · intro ev v hfind hkey
    rw [foldState_room_alias, lastKeyed,
      findSome?_of_find?_key "m.room.canonical_alias" "alias" events.reverse ev v hfind hkey]
    rfl
  · intro hnone
    rw [foldState_room_alias, lastKeyed,
      findSome?_of_find?_none "m.room.canonical_alias" "alias" events.reverse hnone]
    rfl

/-- C1 witness: with two naming events the second wins. -/
theorem C1_witness :
    (foldState [nameEvent "Ops", topicEvent "Infra", nameEvent "Ops-2"]).room_name
      = "Ops-2" :=
  (C1_last_write_wins [nameEvent "Ops", topicEvent "Infra", nameEvent "Ops-2"]).1
    (nameEvent "Ops-2") "Ops-2" (by decide) (by decide)

/-- C2: the summary's encrypted flag is true iff at least one
`m.room.encryption` event occurs in the state-event sequence, and once set by
such an event no later event of any type resets it. -/
theorem C2_encryption_monotone (events extra : List Event) :
    ((foldState events).is_encrypted = true ↔
        ∃ ev ∈ events, ev.type = some "m.room.encryption")
  ∧ ((foldState events).is_encrypted = true →
        (foldState (events ++ extra)).is_encrypted = true) := by
  constructor
  · rw [foldState, foldl_is_encrypted]
    simp [initAcc, List.any_eq_true, isType]
  · intro h
    rw [foldState] at h
    rw [foldState, List.foldl_append, foldl_is_encrypted]
    simp [h]

/-- C2 witness: an encryption event followed by an unrelated event leaves the
flag set. -/
theorem C2_witness :
    (foldState ([encryptionEvent] ++ [nameEvent "Ops"])).is_encrypted = true :=
  (C2_encryption_monotone [encryptionEvent] [nameEvent "Ops"]).2 (by decide)

/-- C3: the summary's last message equals the truncated body carried by the
message event closest to the end of the timeline; with no message event the
default stands. -/
theorem C3_last_message (timeline : List Event) :
    (∀ ev b, lastOfType "m.room.message" timeline = some ev →
        ev.content.lookup "body" = some b →
        scanLastMessage timeline = truncateBody b)
  ∧ (lastOfType "m.room.message" timeline = none →
        scanLastMessage timeline = "Нет сообщений") := by
  constructor
  · intro ev b hfind hkey
    rw [scanLastMessage, lastMessageLoop_eq,
      findSome?_of_find?_key "m.room.message" "body" timeline.reverse ev b hfind hkey]
    rfl
  · intro hnone
    rw [scanLastMessage, lastMessageLoop_eq,
      findSome?_of_find?_none "m.room.message" "body" timeline.reverse hnone]
    rfl

/-- C3 witness: with two message events the later body is reported. -/
theorem C3_witness :
    scanLastMessage [messageEvent "hi", messageEvent "hello"]
      = truncateBody "hello" :=
  (C3_last_message [messageEvent "hi", messageEvent "hello"]).1
    (messageEvent "hello") "hello" (by decide) (by decide)

/-- C4: a message body of at most 100 characters is reported verbatim; a
longer body is cut to its first 100 characters with the continuation marker
`"..."` appended. -/
theorem C4_truncation (b : String) :
    (b.length ≤ 100 → scanLastMessage [messageEvent b] = b)
  ∧ (100 < b.length → scanLastMessage [messageEvent b] = b.take 100 ++ "...") := by
  have hscan : scanLastMessage [messageEvent b] = truncateBody b := rfl
  constructor
  · intro h
    rw [hscan, truncateBody, if_neg (by omega)]
  · intro h
    rw [hscan, truncateBody, if_pos (by omega)]

/-- A body of exactly 100 characters. -/
def bodyA : String := String.mk (List.replicate 100 'a')

/-- A body of 101 characters. -/
def bodyB : String := String.mk (List.replicate 101 'a')

/-- C4 witness: the 100-character body passes unchanged, the 101-character
body is truncated with the marker. -/
theorem C4_witness :
    scanLastMessage [messageEvent bodyA] = bodyA
  ∧ scanLastMessage [messageEvent bodyB] = bodyB.take 100 ++ "..." :=
  ⟨(C4_truncation bodyA).1 (by decide), (C4_truncation bodyB).2 (by decide)⟩

/-- C5: a non-empty resolved roster supplies both the member count (its
total length, even when the fallback membership-event counter differs) and
the 10-entry preview; an empty roster falls back to the count of
`m.room.member` state events and an empty preview. -/
theorem C5_member_precedence (room_id : String)
    (state_events timeline_events : List Event) (members : List String) :
    (members ≠ [] →
        (projectRoom room_id state_events timeline_events members).member_count
            = members.length
      ∧ (projectRoom room_id state_events timeline_events members).members
            = members.take 10)
  ∧ (members = [] →
        (projectRoom room_id state_events timeline_events members).member_count
            = state_events.countP (isType "m.room.member")
      ∧ (projectRoom room_id state_events timeline_events members).members
            = []) := by
  constructor
  · intro h
    have hne : members.isEmpty = false := by
      cases members with
      | nil => exact absurd rfl h
      | cons a l => rfl
    constructor <;> simp [projectRoom, hne]
  · intro h
    subst h
    constructor
    · simp [projectRoom, foldState, foldl_member_count, initAcc]
    · simp [projectRoom]

/-- C5 witness: a roster of two names overrides a fallback counter of three
membership events. -/
theorem C5_witness :
    (projectRoom "!r:example.org" [memberEvent, memberEvent, memberEvent] []
        ["Alice", "Bob"]).member_count = 2
  ∧ (projectRoom "!r:example.org" [memberEvent, memberEvent, memberEvent] []
        ["Alice", "Bob"]).members = ["Alice", "Bob"].take 10 :=
  (C5_member_precedence "!r:example.org" [memberEvent, memberEvent, memberEvent]
    [] ["Alice", "Bob"]).1 (by decide)

/-- The member-resolution rule exactly as the claim states it: the
display-name attribute whenever present, otherwise the raw account
identifier. -/
def displayNameIfPresent (member : MemberRecord) : String :=
  member.displayname.getD member.state_key

/-- The member-resolution rule the code implements: the display-name
attribute when present and non-empty, otherwise the raw account
identifier. -/
def displayNameOrId (member : MemberRecord) : String :=
  match member.displayname with
  | some d => if d = "" then member.state_key else d
  | none => member.state_key

/-- A membership record whose display name is present but empty. -/
def emptyNameMember : MemberRecord :=
  { displayname := some "", state_key := "@alice:example.org" }

/-- C6 counterexample: on a record whose display-name attribute is present
but empty, the code falls back to the raw identifier, so the output differs
from the claimed present-display-name rule. -/
theorem C6_counterexample :
    get_room_members (some "secret") (MembersResponse.ok [emptyNameMember])
      ≠ [emptyNameMember].map displayNameIfPresent := by
  decide

/-- C6 amended: with a non-empty token, one entry per membership record in
the server's returned order, each entry the display-name attribute when
present and non-empty and otherwise the raw account identifier; absence of
a token (or an empty token string, also falsy) or any failed call yields
the empty sequence. -/
theorem C6_member_resolution (tok : String) (chunk : List MemberRecord)
    (resp : MembersResponse) (htok : tok ≠ "") :
    get_room_members (some tok) (MembersResponse.ok chunk)
        = chunk.map displayNameOrId
  ∧ (get_room_members (some tok) (MembersResponse.ok chunk)).length
        = chunk.length
  ∧ get_room_members none resp = []
  ∧ get_room_members (some "") resp = []
  ∧ get_room_members (some tok) MembersResponse.failure = [] := by
  have hf : tokenFalsy (some tok) = false := by simp [tokenFalsy, htok]
  refine ⟨?_, ?_, rfl, rfl, ?_⟩
  · rw [get_room_members, if_neg (by simp [hf])]
    rfl
  · rw [get_room_members, if_neg (by simp [hf])]
    simp
  · rw [get_room_members, if_neg (by simp [hf])]

/-- C6 witness: a non-empty token and one present-but-empty display name
resolve to the raw identifier through the amended rule. -/
theorem C6_witness :
    get_room_members (some "secret") (MembersResponse.ok [emptyNameMember])
      = [emptyNameMember].map displayNameOrId :=
  (C6_member_resolution "secret" [emptyNameMember] MembersResponse.failure
    (by decide)).1

/-- C7: with no access token present, `sync` returns no payload and performs
zero network calls, whatever the server would have answered. -/
theorem C7_unauthenticated_no_network (timeout : Nat) (resp : SyncResponse) :
    sync none timeout resp = (none, 0) := rfl

/-- A manager state with no token but a still-open HTTP session (as left
behind by a failed login). -/
def tokenlessOpenSession : SessionState :=
  { access_token := none, user_id := none, device_id := none,
    session_open := true }

/-- C8 counterexample: called with no token while the HTTP session is still
open, `logout` returns immediately and does not release the connection,
against the claim that it always does. -/
theorem C8_counterexample :
    (logout tokenlessOpenSession LogoutResponse.ok).session_open = true := by
  decide

/-- C8 amended: when a non-falsy token (present and non-empty) is held,
`logout` clears the token, user id and device id and releases the
connection even when the server call fails; when the token is falsy (absent
or the empty string) it returns with the state (an open connection
included) untouched; repeated invocations are idempotent. -/
theorem C8_logout (s : SessionState) (resp resp2 : LogoutResponse) :
    (tokenFalsy s.access_token = false →
        logout s resp
          = { access_token := none, user_id := none, device_id := none,
              session_open := false })
  ∧ (tokenFalsy s.access_token = true → logout s resp = s)
  ∧ logout (logout s resp) resp2 = logout s resp := by
  obtain ⟨tok, uid, did, sopen⟩ := s
  cases tok with
  | none => exact ⟨fun h => by simp [tokenFalsy] at h, fun _ => rfl, rfl⟩
  | some t =>
    by_cases ht : t = ""
    · subst ht
      exact ⟨fun h => by simp [tokenFalsy] at h, fun _ => rfl, rfl⟩
    · have hf : tokenFalsy (some t) = false := by simp [tokenFalsy, ht]
      refine ⟨fun _ => ?_, fun h => ?_, ?_⟩
      · cases sopen <;> simp [logout, hf, close_session]
      · rw [hf] at h
        exact absurd h (by simp)
      · cases sopen <;> simp [logout, hf, close_session, tokenFalsy, ht]

/-- A logged-in manager state with an open session. -/
def loggedInSession : SessionState :=
  { access_token := some "tok123", user_id := some "@u:example.org",
    device_id := some "DEVICE", session_open := true }

/-- C8 witness: even when the server call raises, `logout` on a logged-in
state clears everything and closes the session. -/
theorem C8_witness :
    logout loggedInSession LogoutResponse.exn
      = { access_token := none, user_id := none, device_id := none,
          session_open := false } :=
  (C8_logout loggedInSession LogoutResponse.exn LogoutResponse.exn).1 (by decide)

/-- C9: a naming, topic or canonical-alias event whose content lacks the
corresponding key leaves the accumulated field unchanged, so each field
equals the value of the last event of its type that actually carries the
key (default when none does). -/
theorem C9_missing_key_ignored (events : List Event) (ev : Event) :
    (ev.type = some "m.room.name" → ev.content.lookup "name" = none →
        (foldState (events ++ [ev])).room_name = (foldState events).room_name)
  ∧ (ev.type = some "m.room.topic" → ev.content.lookup "topic" = none →
        (foldState (events ++ [ev])).room_topic = (foldState events).room_topic)
  ∧ (ev.type = some "m.room.canonical_alias" → ev.content.lookup "alias" = none →
        (foldState (events ++ [ev])).room_alias = (foldState events).room_alias)
  ∧ (foldState events).room_name
      = (lastKeyed "m.room.name" "name" events).getD "Без названия"
  ∧ (foldState events).room_topic
      = (lastKeyed "m.room.topic" "topic" events).getD "Нет описания"
  ∧ (foldState events).room_alias
      = (lastKeyed "m.room.canonical_alias" "alias" events).getD "Нет алиаса" := by
  refine ⟨?_, ?_, ?_, foldState_room_name events, foldState_room_topic events,
    foldState_room_alias events⟩
  · intro ht hk
    rw [foldState, List.foldl_append, List.foldl_cons, List.foldl_nil,
      processStateEvent_room_name, stateLookup, if_pos ht, hk]
    rfl
  · intro ht hk
    rw [foldState, List.foldl_append, List.foldl_cons, List.foldl_nil,
      processStateEvent_room_topic, stateLookup, if_pos ht, hk]
    rfl
  · intro ht hk
    rw [foldState, List.foldl_append, List.foldl_cons, List.foldl_nil,
      processStateEvent_room_alias, stateLookup, if_pos ht, hk]
    rfl

/-- A naming event whose content lacks the `name` key. -/
def keylessNameEvent : Event :=
  { type := some "m.room.name", content := [] }

/-- C9 witness: a keyless naming event appended after a real one leaves the
accumulated name unchanged. -/
theorem C9_witness :
    (foldState ([nameEvent "Ops"] ++ [keylessNameEvent])).room_name
      = (foldState [nameEvent "Ops"]).room_name :=
  (C9_missing_key_ignored [nameEvent "Ops"] keylessNameEvent).1 rfl rfl

/-- C10: a message event whose content lacks a `body` key is skipped by the
reverse timeline scan, so the last message equals the truncated body of the
most recent message event that has a body (default when none does). -/
theorem C10_bodyless_skipped (timeline : List Event) (ev : Event) :
    (ev.type = some "m.room.message" → ev.content.lookup "body" = none →
        scanLastMessage (timeline ++ [ev]) = scanLastMessage timeline)
  ∧ scanLastMessage timeline
      = ((lastKeyed "m.room.message" "body" timeline).map truncateBody).getD
          "Нет сообщений" := by
  constructor
  · intro ht hb
    rw [scanLastMessage, scanLastMessage, List.reverse_append,
      List.reverse_singleton, List.singleton_append]
    simp [lastMessageLoop, ht, hb]
  · exact lastMessageLoop_eq timeline.reverse

/-- A message event carrying no `body` key. -/
def bodylessMessageEvent : Event :=
  { type := some "m.room.message", content := [("msgtype", "m.image")] }

/-- C10 witness: a bodyless message event appended at the end is skipped and
the older message's body is still reported. -/
theorem C10_witness :
    scanLastMessage ([messageEvent "hi"] ++ [bodylessMessageEvent])
      = scanLastMessage [messageEvent "hi"] :=
  (C10_bodyless_skipped [messageEvent "hi"] bodylessMessageEvent).1 rfl rfl

end MatrixBot
